import Mathlib

/-!
Verification of the Whitebear editor core: `Tools/DirectoryLoader.py`
(directory classification) and `Tools/Document/BaseImage.py` (SEO field
validation).  The filesystem, the lxml parser and the three XML schemas are
external to the program; a file's observable interactions with them
(permission bits, whether `html.parse` succeeds, whether each schema
validates the parsed tree) are recorded as boolean fields of the file
model, and the loader logic is translated statement by statement.
-/

set_option autoImplicit false

namespace Whitebear

/- Message constants used by the loader and the SEO checks.  Modelled from
the spec: the module `Constants/Strings.py` is not part of the sources here,
only the names of its constants appear at the use sites; the exact text is
immaterial, each constant is one fixed distinct string. -/
namespace Strings

def exception_access : String := "Directory is not readable or writable"

def exception_access_html : String := "File is not readable or writable:"

def exception_index : String := "Index.html not found in"

def exception_not_white_bear : String := "Not a white bear directory"

def exception_html_syntax_error : String := "Syntax error in html file"

def exception_file_unrecognized : String := "Unrecognized file:"

def seo_error_link_title_length : String := "Link title length out of range"

def seo_error_image_alt_length : String := "Image alt length out of range"

def seo_error_default_value : String := "Default value has not been changed"

end Strings

/-- Observable behaviour of one file matched by `glob.glob(path + '/*.html')`
in `DirectoryLoader._prepare_documents`: `filename` is `os.path.basename`,
`fullpath` stands for the globbed path (also the value of `os.path.realpath`
used for the document), `is_file` is `os.path.isfile`, `readable`/`writable`
are the `os.access` probes, `parses` is whether `lxml.html.parse` succeeds
(`parse_diag` the diagnostic of the `XMLSyntaxError` otherwise), and the
three `matches_*` fields are the results of `xmlschema_*.validate` on the
parsed tree. -/
structure HtmlFile where
  filename : String
  fullpath : String
  is_file : Bool
  readable : Bool
  writable : Bool
  parses : Bool
  parse_diag : String
  matches_article : Bool
  matches_menu : Bool
  matches_index : Bool
deriving DecidableEq, Repr

/-- Observable behaviour of a root directory handed to
`DirectoryLoader.load_directory`: the `os.access` probes on the directory,
whether `index.html` exists, parses, and validates against the index schema
(used by `_is_white_bear_directory`), and the list of `*.html` files in
enumeration order (used by `_prepare_documents`). -/
structure Directory where
  path : String
  readable : Bool
  writable : Bool
  index_present : Bool
  index_parses : Bool
  index_parse_diag : String
  index_valid : Bool
  index_error_log : String
  files : List HtmlFile
deriving DecidableEq, Repr

/-- Document roles: `WhitebearDocument.TYPE_ARTICLE` / `TYPE_MENU` /
`TYPE_INDEX`. -/
inductive DocType where
  | article
  | menu
  | index
deriving DecidableEq, Repr

/-- Modelled from the spec: the class `WhitebearDocument` lives in
`Tools/Document/WhitebearDocumentArticle.py`, which is not among the
sources; per the spec's Document model it stores the base `filename`, the
canonical `path`, the immutable role, and — for articles only — a shared
reference to the loader's live menu collection.  The loader passes
`self._menu_documents` itself (a reference to the one dict object owned by
the loader, never reassigned) to article documents and `None` to the
others; `menus_ref` records which of the two was passed. -/
structure WhitebearDocument where
  filename : String
  path : String
  doc_type : DocType
  menus_ref : Bool
deriving DecidableEq, Repr

/-- The exception kinds `DirectoryLoader` can raise, one constructor per
Python exception class used: `AccessException`, `FileNotFoundError`,
`IndexError`, `UnrecognizedFileException`, each carrying its message. -/
inductive LoadError where
  | accessException (msg : String)
  | fileNotFoundError (msg : String)
  | indexError (msg : String)
  | unrecognizedFileException (msg : String)
deriving DecidableEq, Repr

/-- Numeric discriminant of the exception class, for stating which kind an
error is independently of its message. -/
def LoadError.kind : LoadError → Nat
  | .accessException _ => 0
  | .fileNotFoundError _ => 1
  | .indexError _ => 2
  | .unrecognizedFileException _ => 3

/-- Python `needle in hay` on strings, as structural recursion over the
character lists. -/
def charsStart : List Char → List Char → Bool
  | [], _ => true
  | _ :: _, [] => false
  | a :: as, b :: bs => a == b && charsStart as bs

/-- Helper for `containsSub`: does `needle` occur in `hay` at any position. -/
def charsContain (needle : List Char) : List Char → Bool
  | [] => charsStart needle []
  | c :: cs => charsStart needle (c :: cs) || charsContain needle cs

/-- Python substring test `needle in hay`. -/
def containsSub (needle hay : String) : Bool :=
  charsContain needle.data hay.data

/-- Python dict assignment `d[k] = v` on an insertion-ordered association
list: an existing key keeps its position and gets the new value, a new key
is appended. -/
def dictInsert (d : List (String × WhitebearDocument)) (k : String)
    (v : WhitebearDocument) : List (String × WhitebearDocument) :=
  if d.any (fun p => p.1 == k) then
    d.map (fun p => if p.1 == k then (k, v) else p)
  else
    d ++ [(k, v)]

/-- The mutable state of a `DirectoryLoader` instance: `_directory_path`,
`_article_documents`, `_menu_documents`, `_index_document`.  The three
compiled schemas also set up in `__init__` are stateless after load and are
modelled by the `matches_*` fields of `HtmlFile`. -/
structure DirectoryLoader where
  directory_path : String
  article_documents : List (String × WhitebearDocument)
  menu_documents : List (String × WhitebearDocument)
  index_document : Option WhitebearDocument
deriving DecidableEq, Repr

namespace DirectoryLoader

/-- `DirectoryLoader.__init__`: empty path, empty mappings, no index
document. -/
def init : DirectoryLoader :=
  { directory_path := ""
    article_documents := []
    menu_documents := []
    index_document := none }

/-- `DirectoryLoader.get_directory`. -/
def get_directory (l : DirectoryLoader) : String :=
  l.directory_path

/-- `DirectoryLoader.get_articles`. -/
def get_articles (l : DirectoryLoader) : List (String × WhitebearDocument) :=
  l.article_documents

/-- `DirectoryLoader.get_menus`. -/
def get_menus (l : DirectoryLoader) : List (String × WhitebearDocument) :=
  l.menu_documents

/-- `DirectoryLoader.get_index_page`. -/
def get_index_page (l : DirectoryLoader) : Option WhitebearDocument :=
  l.index_document

/-- The membership of the menu collection a document can reach through the
reference it was constructed with: article documents hold the loader's live
`_menu_documents` dict, so dereferencing it yields the loader's current
menu mapping; other documents hold `None`. -/
def menu_view (l : DirectoryLoader) (doc : WhitebearDocument) :
    Option (List (String × WhitebearDocument)) :=
  if doc.menus_ref then some l.menu_documents else none

/-- `DirectoryLoader._is_white_bear_directory`, whose result is either
`True` or one of the raised exceptions: directory access check
(`AccessException`), `index.html` existence (`FileNotFoundError`), then
inside the `try` block the parse (`XMLSyntaxError` caught and re-raised as
`IndexError` with the syntax message) and the index-schema validation
(`IndexError` with the not-white-bear message and the schema error log). -/
def is_white_bear_directory (d : Directory) : Except LoadError Bool :=
  if !d.readable || !d.writable then
    .error (.accessException Strings.exception_access)
  else if !d.index_present then
    .error (.fileNotFoundError (Strings.exception_index ++ " " ++ d.path))
  else if !d.index_parses then
    .error (.indexError (Strings.exception_html_syntax_error ++ "\n" ++ d.index_parse_diag))
  else if !d.index_valid then
    .error (.indexError (Strings.exception_not_white_bear ++ "\n" ++ d.index_error_log))
  else
    .ok true

/-- Loop body of `DirectoryLoader._prepare_documents` for one globbed file:
skip non-files, raise `AccessException` for an unreadable or unwritable
file, raise `UnrecognizedFileException` with the syntax message when
`html.parse` raises `XMLSyntaxError`, otherwise classify by the first
matching schema in the order article, menu, index; a file matching no
schema is skipped when its name contains `google` or `404` and otherwise
raises `UnrecognizedFileException` naming it.  On `.ok` the returned state
carries the one mutation the iteration made; every `raise` leaves the state
as it was. -/
def process_file (l : DirectoryLoader) (f : HtmlFile) :
    Except LoadError DirectoryLoader :=
  if !f.is_file then
    .ok l
  else if !f.readable || !f.writable then
    .error (.accessException (Strings.exception_access_html ++ " " ++ f.fullpath))
  else if !f.parses then
    .error (.unrecognizedFileException
      (Strings.exception_html_syntax_error ++ "\n" ++ f.parse_diag))
  else if f.matches_article then
    .ok { l with article_documents := dictInsert l.article_documents f.filename ⟨f.filename, f.fullpath, DocType.article, true⟩ }
  else if f.matches_menu then
    .ok { l with menu_documents := dictInsert l.menu_documents f.filename ⟨f.filename, f.fullpath, DocType.menu, false⟩ }
  else if f.matches_index then
    .ok { l with index_document := some ⟨f.filename, f.fullpath, DocType.index, false⟩ }
  else if containsSub "google" f.filename || containsSub "404" f.filename then
    .ok l
  else
    .error (.unrecognizedFileException
      (Strings.exception_file_unrecognized ++ " " ++ f.filename))

/-- `DirectoryLoader._prepare_documents`: fold the loop body over the
globbed files.  A raised exception aborts the loop but `self` keeps every
mutation the completed iterations made, so the result is the state at the
moment of the raise together with the raised exception, if any. -/
def prepare_documents : DirectoryLoader → List HtmlFile →
    DirectoryLoader × Option LoadError
  | l, [] => (l, none)
  | l, f :: fs =>
    match l.process_file f with
    | .ok l2 => prepare_documents l2 fs
    | .error e => (l, some e)

/-- `DirectoryLoader.load_directory`: store the supplied path, then run the
directory gate and, when it returns `True`, the per-file pass.  Exceptions
propagate to the caller together with the state `self` was left in. -/
def load_directory (l : DirectoryLoader) (d : Directory) :
    DirectoryLoader × Option LoadError :=
  match is_white_bear_directory d with
  | .error e => ({ l with directory_path := d.path }, some e)
  | .ok _ => ({ l with directory_path := d.path }).prepare_documents d.files

end DirectoryLoader

/-- Status colors a `BaseImage` can hold: `None` from the constructor,
`wx.NullColour` (neutral) or `wx.RED` after `seo_test_self`. -/
inductive StatusColor where
  | unset
  | nullColour
  | red
deriving DecidableEq, Repr

/-- Modelled from the spec: the length bounds and placeholder defaults read
from the missing `Constants/Constants.py` module (`Numbers.article_image_title_min`,
`Numbers.article_image_title_max`, `Numbers.article_image_alt_min`,
`Numbers.article_image_alt_max`, `Strings.label_article_image_link_title`,
`Strings.label_article_image_alt`); the spec fixes only that they are
closed inclusive length bounds per field kind plus one literal placeholder
string per field kind, so they are kept as parameters. -/
structure SeoPolicy where
  article_image_title_min : Nat
  article_image_title_max : Nat
  article_image_alt_min : Nat
  article_image_alt_max : Nat
  label_article_image_link_title : String
  label_article_image_alt : String
deriving DecidableEq, Repr

/-- The state of a `BaseImage` instance (`Tools/Document/BaseImage.py`):
the two field values, their error messages, the disk paths and file names,
and the status color.  The `_image` field (a `wx.Image` set by subclasses)
plays no part in `seo_test_self` and is omitted. -/
structure BaseImage where
  link_title : String
  link_title_error_message : String
  image_alt : String
  image_alt_error_message : String
  original_image_path : String
  thumbnail_path : String
  full_filename : String
  thumbnail_filename : String
  status_color : StatusColor
deriving DecidableEq, Repr

namespace BaseImage

/-- `BaseImage.__init__`: stores the six constructor arguments, empty error
messages, status color `None`. -/
def mk_new (title image_alt original_image_path thumbnail_path
    full_filename thumbnail_filename : String) : BaseImage :=
  { link_title := title
    link_title_error_message := ""
    image_alt := image_alt
    image_alt_error_message := ""
    original_image_path := original_image_path
    thumbnail_path := thumbnail_path
    full_filename := full_filename
    thumbnail_filename := thumbnail_filename
    status_color := StatusColor.unset }

/-- `BaseImage.seo_test_self`: clear both error messages and reset the
status color to `wx.NullColour`, then run the four checks in order — link
title length bounds, link title equal to its placeholder default, image alt
length bounds, image alt equal to its placeholder default — each failing
check overwriting that field's error message and setting the result to
`False`; finally set the status color to `wx.RED` iff the result is
`False`.  Returns the updated state and the boolean result. -/
def seo_test_self (p : SeoPolicy) (img : BaseImage) : BaseImage × Bool :=
  let i0 : BaseImage := { img with link_title_error_message := ""
                                   image_alt_error_message := ""
                                   status_color := StatusColor.nullColour }
  let s1 : BaseImage × Bool :=
    if i0.link_title.length < p.article_image_title_min
        ∨ i0.link_title.length > p.article_image_title_max then
      ({ i0 with link_title_error_message := Strings.seo_error_link_title_length }, false)
    else (i0, true)
  let s2 : BaseImage × Bool :=
    if s1.1.link_title = p.label_article_image_link_title then
      ({ s1.1 with link_title_error_message := Strings.seo_error_default_value }, false)
    else s1
  let s3 : BaseImage × Bool :=
    if s2.1.image_alt.length < p.article_image_alt_min
        ∨ s2.1.image_alt.length > p.article_image_alt_max then
      ({ s2.1 with image_alt_error_message := Strings.seo_error_image_alt_length }, false)
    else s2
  let s4 : BaseImage × Bool :=
    if s3.1.image_alt = p.label_article_image_alt then
      ({ s3.1 with image_alt_error_message := Strings.seo_error_default_value }, false)
    else s3
  if s4.2 then s4
  else ({ s4.1 with status_color := StatusColor.red }, false)

/-- `BaseImage.get_link_title`: the value together with its current error
message. -/
def get_link_title (img : BaseImage) : String × String :=
  (img.link_title, img.link_title_error_message)

/-- `BaseImage.get_image_alt`: the value together with its current error
message. -/
def get_image_alt (img : BaseImage) : String × String :=
  (img.image_alt, img.image_alt_error_message)

/-- `BaseImage.get_status_color`. -/
def get_status_color (img : BaseImage) : StatusColor :=
  img.status_color

end BaseImage

/-! Concrete inputs used to evaluate the model: files and directories with
explicit observable behaviour, a concrete SEO policy and concrete images. -/

/-- A valid menu file in directory `/w1`. -/
def exM1 : HtmlFile :=
  { filename := "m1.html", fullpath := "/w1/m1.html", is_file := true
    readable := true, writable := true, parses := true, parse_diag := ""
    matches_article := false, matches_menu := true, matches_index := false }

/-- A valid article file in directory `/w2`. -/
def exA2 : HtmlFile :=
  { filename := "a2.html", fullpath := "/w2/a2.html", is_file := true
    readable := true, writable := true, parses := true, parse_diag := ""
    matches_article := true, matches_menu := false, matches_index := false }

/-- A file satisfying both the article and the menu schema. -/
def exBoth : HtmlFile :=
  { filename := "both.html", fullpath := "/w1/both.html", is_file := true
    readable := true, writable := true, parses := true, parse_diag := ""
    matches_article := true, matches_menu := true, matches_index := false }

/-- A valid menu file in directory `/w3`. -/
def exM3 : HtmlFile :=
  { filename := "m3.html", fullpath := "/w3/m3.html", is_file := true
    readable := true, writable := true, parses := true, parse_diag := ""
    matches_article := false, matches_menu := true, matches_index := false }

/-- A file in `/w3` lacking read permission. -/
def exBad : HtmlFile :=
  { filename := "b.html", fullpath := "/w3/b.html", is_file := true
    readable := false, writable := true, parses := true, parse_diag := ""
    matches_article := false, matches_menu := false, matches_index := false }

/-- A file that does not parse as well-formed HTML. -/
def exSyn : HtmlFile :=
  { filename := "s.html", fullpath := "/w4/s.html", is_file := true
    readable := true, writable := true, parses := false
    parse_diag := "Opening and ending tag mismatch, line 3"
    matches_article := false, matches_menu := false, matches_index := false }

/-- A parseable file matching no schema whose name carries no deny-list
marker. -/
def exUnrec : HtmlFile :=
  { filename := "weird.html", fullpath := "/w5/weird.html", is_file := true
    readable := true, writable := true, parses := true, parse_diag := ""
    matches_article := false, matches_menu := false, matches_index := false }

/-- A parseable file matching no schema whose name contains the `404`
deny-list marker. -/
def exNotFound : HtmlFile :=
  { filename := "404.html", fullpath := "/w5/404.html", is_file := true
    readable := true, writable := true, parses := true, parse_diag := ""
    matches_article := false, matches_menu := false, matches_index := false }

/-- An accessible directory passing the index gate, containing one menu
file. -/
def exDir1 : Directory :=
  { path := "/w1", readable := true, writable := true, index_present := true
    index_parses := true, index_parse_diag := "", index_valid := true
    index_error_log := "", files := [exM1] }

/-- An accessible directory passing the index gate, containing one article
file. -/
def exDir2 : Directory :=
  { path := "/w2", readable := true, writable := true, index_present := true
    index_parses := true, index_parse_diag := "", index_valid := true
    index_error_log := "", files := [exA2] }

/-- An accessible directory passing the index gate whose second enumerated
file lacks read permission. -/
def exDir3 : Directory :=
  { path := "/w3", readable := true, writable := true, index_present := true
    index_parses := true, index_parse_diag := "", index_valid := true
    index_error_log := "", files := [exM3, exBad] }

/-- An accessible directory passing the index gate containing one file that
fails to parse. -/
def exDir4 : Directory :=
  { path := "/w4", readable := true, writable := true, index_present := true
    index_parses := true, index_parse_diag := "", index_valid := true
    index_error_log := "", files := [exSyn] }

/-- An accessible directory passing the index gate containing one
unrecognizable file. -/
def exDir5 : Directory :=
  { path := "/w5", readable := true, writable := true, index_present := true
    index_parses := true, index_parse_diag := "", index_valid := true
    index_error_log := "", files := [exUnrec] }

/-- A concrete SEO policy: title and alt lengths in `[3, 10]`, fixed
placeholder defaults. -/
def exPolicy : SeoPolicy :=
  { article_image_title_min := 3, article_image_title_max := 10
    article_image_alt_min := 3, article_image_alt_max := 10
    label_article_image_link_title := "holder"
    label_article_image_alt := "altdef" }

/-- An image whose link title is exactly the placeholder default (length 6,
within bounds) and whose alt is valid. -/
def exImgPlaceholder : BaseImage :=
  BaseImage.mk_new "holder" "alt txt" "/img/o.jpg" "/img/t.jpg" "o.jpg" "t.jpg"

/-- An image whose link title is one character below the minimum length. -/
def exImgShort : BaseImage :=
  BaseImage.mk_new "ab" "alt txt" "/img/o.jpg" "/img/t.jpg" "o.jpg" "t.jpg"

/-- An image whose two fields are within bounds and differ from the
placeholders. -/
def exImgOk : BaseImage :=
  BaseImage.mk_new "hello" "horses" "/img/o.jpg" "/img/t.jpg" "o.jpg" "t.jpg"

/-! Helper lemmas about `dictInsert`, the per-file loop body and the loop
itself. -/

theorem dictInsert_fst_map (d : List (String × WhitebearDocument)) (k : String)
    (v : WhitebearDocument) :
    (dictInsert d k v).map Prod.fst = d.map Prod.fst ∨
      (dictInsert d k v).map Prod.fst = d.map Prod.fst ++ [k] := by
  unfold dictInsert
  split
  · left
    rw [List.map_map]
    apply List.map_congr_left
    intro p _
    by_cases hp : p.1 = k
    · simp [hp]
    · simp [hp]
  · right
    simp

theorem dictInsert_keys_mono {d : List (String × WhitebearDocument)}
    {k0 k : String} {v : WhitebearDocument}
    (h : k0 ∈ d.map Prod.fst) : k0 ∈ (dictInsert d k v).map Prod.fst := by
  rcases dictInsert_fst_map d k v with h2 | h2 <;> rw [h2]
  · exact h
  · exact List.mem_append_left _ h

theorem dictInsert_mem_val {d : List (String × WhitebearDocument)}
    {k : String} {v : WhitebearDocument} {p : String × WhitebearDocument}
    (h : p ∈ dictInsert d k v) : p ∈ d ∨ p.2 = v := by
  unfold dictInsert at h
  split at h
  · rcases List.mem_map.1 h with ⟨q, hq, hfq⟩
    by_cases hk : q.1 = k
    · right
      rw [← hfq]
      simp [hk]
    · left
      rw [← hfq]
      simpa [hk] using hq
  · rcases List.mem_append.1 h with h2 | h2
    · exact Or.inl h2
    · right
      rw [List.mem_singleton.1 h2]

theorem process_file_ok_shape {l l' : DirectoryLoader} {f : HtmlFile}
    (h : l.process_file f = .ok l') :
    l' = l
    ∨ (∃ v : WhitebearDocument, v.menus_ref = true ∧
        l' = { l with article_documents := dictInsert l.article_documents f.filename v })
    ∨ (∃ v : WhitebearDocument,
        l' = { l with menu_documents := dictInsert l.menu_documents f.filename v })
    ∨ (∃ v : WhitebearDocument, l' = { l with index_document := some v }) := by
  unfold DirectoryLoader.process_file at h
  split at h
  · cases h
    exact Or.inl rfl
  split at h
  · cases h
  split at h
  · cases h
  split at h
  · cases h
    exact Or.inr (Or.inl ⟨_, rfl, rfl⟩)
  split at h
  · cases h
    exact Or.inr (Or.inr (Or.inl ⟨_, rfl⟩))
  split at h
  · cases h
    exact Or.inr (Or.inr (Or.inr ⟨_, rfl⟩))
  split at h
  · cases h
    exact Or.inl rfl
  · cases h

theorem process_file_path {l l' : DirectoryLoader} {f : HtmlFile}
    (h : l.process_file f = .ok l') : l'.directory_path = l.directory_path := by
  rcases process_file_ok_shape h with rfl | ⟨v, _, rfl⟩ | ⟨v, rfl⟩ | ⟨v, rfl⟩ <;> rfl

theorem process_file_article_keys {l l' : DirectoryLoader} {f : HtmlFile}
    (h : l.process_file f = .ok l') {k : String}
    (hk : k ∈ l.article_documents.map Prod.fst) :
    k ∈ l'.article_documents.map Prod.fst := by
  rcases process_file_ok_shape h with rfl | ⟨v, _, rfl⟩ | ⟨v, rfl⟩ | ⟨v, rfl⟩
  · exact hk
  · exact dictInsert_keys_mono hk
  · exact hk
  · exact hk

theorem process_file_menu_keys {l l' : DirectoryLoader} {f : HtmlFile}
    (h : l.process_file f = .ok l') {k : String}
    (hk : k ∈ l.menu_documents.map Prod.fst) :
    k ∈ l'.menu_documents.map Prod.fst := by
  rcases process_file_ok_shape h with rfl | ⟨v, _, rfl⟩ | ⟨v, rfl⟩ | ⟨v, rfl⟩
  · exact hk
  · exact hk
  · exact dictInsert_keys_mono hk
  · exact hk

theorem process_file_index_some {l l' : DirectoryLoader} {f : HtmlFile}
    (h : l.process_file f = .ok l')
    (hi : l.index_document.isSome = true) : l'.index_document.isSome = true := by
  rcases process_file_ok_shape h with rfl | ⟨v, _, rfl⟩ | ⟨v, rfl⟩ | ⟨v, rfl⟩
  · exact hi
  · exact hi
  · exact hi
  · rfl

theorem process_file_menus_ref {l l' : DirectoryLoader} {f : HtmlFile}
    (h : l.process_file f = .ok l')
    (hinv : ∀ p ∈ l.article_documents, p.2.menus_ref = true) :
    ∀ p ∈ l'.article_documents, p.2.menus_ref = true := by
  rcases process_file_ok_shape h with rfl | ⟨v, hv, rfl⟩ | ⟨v, rfl⟩ | ⟨v, rfl⟩
  · exact hinv
  · intro p hp
    rcases dictInsert_mem_val hp with hp2 | hp2
    · exact hinv p hp2
    · rw [hp2]
      exact hv
  · exact hinv
  · exact hinv

theorem prepare_documents_nil (l : DirectoryLoader) :
    l.prepare_documents [] = (l, none) := rfl

theorem prepare_documents_cons_ok {l l2 : DirectoryLoader} {f : HtmlFile}
    (h : l.process_file f = .ok l2) (fs : List HtmlFile) :
    l.prepare_documents (f :: fs) = l2.prepare_documents fs := by
  show (match l.process_file f with
    | Except.ok l3 => l3.prepare_documents fs
    | Except.error e => (l, some e)) = l2.prepare_documents fs
  rw [h]

theorem prepare_documents_cons_error {l : DirectoryLoader} {e : LoadError}
    {f : HtmlFile} (h : l.process_file f = .error e) (fs : List HtmlFile) :
    l.prepare_documents (f :: fs) = (l, some e) := by
  show (match l.process_file f with
    | Except.ok l3 => l3.prepare_documents fs
    | Except.error e2 => (l, some e2)) = (l, some e)
  rw [h]

theorem prepare_documents_append {xs : List HtmlFile} :
    ∀ (pre : List HtmlFile) (l lp : DirectoryLoader),
      l.prepare_documents pre = (lp, none) →
      l.prepare_documents (pre ++ xs) = lp.prepare_documents xs := by
  intro pre
  induction pre with
  | nil =>
    intro l lp h
    rw [prepare_documents_nil] at h
    injection h with h1 _
    rw [h1]
    rfl
  | cons f pre ih =>
    intro l lp h
    cases hpf : l.process_file f with
    | ok l2 =>
      rw [prepare_documents_cons_ok hpf] at h
      rw [List.cons_append, prepare_documents_cons_ok hpf]
      exact ih l2 lp h
    | error e =>
      rw [prepare_documents_cons_error hpf] at h
      injection h with _ h2
      cases h2

theorem prepare_documents_path (fs : List HtmlFile) :
    ∀ l : DirectoryLoader,
      ((l.prepare_documents fs).1).directory_path = l.directory_path := by
  induction fs with
  | nil =>
    intro l
    rfl
  | cons f fs ih =>
    intro l
    cases hpf : l.process_file f with
    | ok l2 =>
      rw [prepare_documents_cons_ok hpf]
      exact (ih l2).trans (process_file_path hpf)
    | error e =>
      rw [prepare_documents_cons_error hpf]

theorem prepare_documents_article_keys (fs : List HtmlFile) :
    ∀ (l : DirectoryLoader) (k : String),
      k ∈ l.article_documents.map Prod.fst →
      k ∈ ((l.prepare_documents fs).1).article_documents.map Prod.fst := by
  induction fs with
  | nil =>
    intro l k hk
    exact hk
  | cons f fs ih =>
    intro l k hk
    cases hpf : l.process_file f with
    | ok l2 =>
      rw [prepare_documents_cons_ok hpf]
      exact ih l2 k (process_file_article_keys hpf hk)
    | error e =>
      rw [prepare_documents_cons_error hpf]
      exact hk

theorem prepare_documents_menu_keys (fs : List HtmlFile) :
    ∀ (l : DirectoryLoader) (k : String),
      k ∈ l.menu_documents.map Prod.fst →
      k ∈ ((l.prepare_documents fs).1).menu_documents.map Prod.fst := by
  induction fs with
  | nil =>
    intro l k hk
    exact hk
  | cons f fs ih =>
    intro l k hk
    cases hpf : l.process_file f with
    | ok l2 =>
      rw [prepare_documents_cons_ok hpf]
      exact ih l2 k (process_file_menu_keys hpf hk)
    | error e =>
      rw [prepare_documents_cons_error hpf]
      exact hk

theorem prepare_documents_index_some (fs : List HtmlFile) :
    ∀ l : DirectoryLoader,
      l.index_document.isSome = true →
      ((l.prepare_documents fs).1).index_document.isSome = true := by
  induction fs with
  | nil =>
    intro l hi
    exact hi
  | cons f fs ih =>
    intro l hi
    cases hpf : l.process_file f with
    | ok l2 =>
      rw [prepare_documents_cons_ok hpf]
      exact ih l2 (process_file_index_some hpf hi)
    | error e =>
      rw [prepare_documents_cons_error hpf]
      exact hi

theorem prepare_documents_menus_ref (fs : List HtmlFile) :
    ∀ l : DirectoryLoader,
      (∀ p ∈ l.article_documents, p.2.menus_ref = true) →
      ∀ p ∈ ((l.prepare_documents fs).1).article_documents, p.2.menus_ref = true := by
  induction fs with
  | nil =>
    intro l hinv
    exact hinv
  | cons f fs ih =>
    intro l hinv
    cases hpf : l.process_file f with
    | ok l2 =>
      rw [prepare_documents_cons_ok hpf]
      exact ih l2 (process_file_menus_ref hpf hinv)
    | error e =>
      rw [prepare_documents_cons_error hpf]
      exact hinv

theorem is_white_bear_directory_ok {d : Directory}
    (hr : d.readable = true) (hw : d.writable = true)
    (hip : d.index_present = true) (hps : d.index_parses = true)
    (hv : d.index_valid = true) :
    DirectoryLoader.is_white_bear_directory d = .ok true := by
  unfold DirectoryLoader.is_white_bear_directory
  simp [hr, hw, hip, hps, hv]

theorem load_directory_gate_ok {d : Directory}
    (h : DirectoryLoader.is_white_bear_directory d = .ok true)
    (l : DirectoryLoader) :
    l.load_directory d = ({ l with directory_path := d.path }).prepare_documents d.files := by
  unfold DirectoryLoader.load_directory
  rw [h]

theorem load_directory_gate_error {d : Directory} {e : LoadError}
    (h : DirectoryLoader.is_white_bear_directory d = .error e)
    (l : DirectoryLoader) :
    l.load_directory d = ({ l with directory_path := d.path }, some e) := by
  unfold DirectoryLoader.load_directory
  rw [h]

/-! The claims. -/

/-- Claim C1: during enumeration a parsed, accessible file is tested
against the schemas in the exact order article, menu, index, and the first
match determines its role with no later schema consulted — in particular a
file satisfying the article schema is recorded as an article (only the
article mapping changes) whatever the menu and index schemas would say, a
file failing the article schema but satisfying the menu schema is recorded
as a menu whatever the index schema would say, and a file matching only the
index schema is recorded as the index document. -/
theorem C1_classification_precedence (l : DirectoryLoader) (f : HtmlFile)
    (hfile : f.is_file = true) (hr : f.readable = true) (hw : f.writable = true)
    (hp : f.parses = true) :
    (f.matches_article = true →
      l.process_file f = Except.ok { l with article_documents := dictInsert l.article_documents f.filename ⟨f.filename, f.fullpath, DocType.article, true⟩ })
    ∧ (f.matches_article = false → f.matches_menu = true →
      l.process_file f = Except.ok { l with menu_documents := dictInsert l.menu_documents f.filename ⟨f.filename, f.fullpath, DocType.menu, false⟩ })
    ∧ (f.matches_article = false → f.matches_menu = false → f.matches_index = true →
      l.process_file f = Except.ok { l with index_document := some ⟨f.filename, f.fullpath, DocType.index, false⟩ }) := by
  unfold DirectoryLoader.process_file
  refine ⟨?_, ?_, ?_⟩
  · intro h1
    simp [hfile, hr, hw, hp, h1]
  · intro h1 h2
    simp [hfile, hr, hw, hp, h1, h2]
  · intro h1 h2 h3
    simp [hfile, hr, hw, hp, h1, h2, h3]

/-- Witness for C1 at a concrete file satisfying both the article and the
menu schema: it is classified as an article and the menu mapping is left
untouched. -/
theorem C1_classification_precedence_witness :
    exBoth.matches_article = true ∧ exBoth.matches_menu = true ∧
    DirectoryLoader.init.process_file exBoth = Except.ok
      { DirectoryLoader.init with article_documents := dictInsert DirectoryLoader.init.article_documents exBoth.filename ⟨exBoth.filename, exBoth.fullpath, DocType.article, true⟩ } :=
  ⟨rfl, rfl,
    (C1_classification_precedence DirectoryLoader.init exBoth rfl rfl rfl rfl).1 rfl⟩

/-- Claim C5: an enumerated, accessible, parseable file matching none of
the three schemas is silently skipped when its filename contains `google`
or `404` — the loop continues on the remaining files with the loader state
unchanged, so the file lands in none of the three collections and no error
is raised; any other such unmatched file makes the pass stop at once with
`UnrecognizedFileException` naming the file, leaving the state as it was. -/
theorem C5_denylist_skip_or_unrecognized (l : DirectoryLoader) (f : HtmlFile)
    (fs : List HtmlFile)
    (hfile : f.is_file = true) (hr : f.readable = true) (hw : f.writable = true)
    (hp : f.parses = true) (hna : f.matches_article = false)
    (hnm : f.matches_menu = false) (hni : f.matches_index = false) :
    ((containsSub "google" f.filename || containsSub "404" f.filename) = true →
      l.prepare_documents (f :: fs) = l.prepare_documents fs)
    ∧ ((containsSub "google" f.filename || containsSub "404" f.filename) = false →
      l.prepare_documents (f :: fs) = (l, some (LoadError.unrecognizedFileException
        (Strings.exception_file_unrecognized ++ " " ++ f.filename)))) := by
  constructor
  · intro hdeny
    have hok : l.process_file f = Except.ok l := by
      unfold DirectoryLoader.process_file
      simp [hfile, hr, hw, hp, hna, hnm, hni, hdeny]
    exact prepare_documents_cons_ok hok fs
  · intro hdeny
    have herr : l.process_file f = Except.error (LoadError.unrecognizedFileException
        (Strings.exception_file_unrecognized ++ " " ++ f.filename)) := by
      unfold DirectoryLoader.process_file
      simp [hfile, hr, hw, hp, hna, hnm, hni, hdeny]
    exact prepare_documents_cons_error herr fs

/-- Witness for C5 at two concrete unmatched files: `404.html` is skipped
with the loader unchanged, `weird.html` aborts the pass with the
unrecognized-file error naming it. -/
theorem C5_denylist_skip_or_unrecognized_witness :
    DirectoryLoader.init.prepare_documents [exNotFound] = (DirectoryLoader.init, none)
    ∧ DirectoryLoader.init.prepare_documents [exUnrec] =
      (DirectoryLoader.init, some (LoadError.unrecognizedFileException
        (Strings.exception_file_unrecognized ++ " " ++ "weird.html"))) :=
  ⟨(C5_denylist_skip_or_unrecognized DirectoryLoader.init exNotFound []
      rfl rfl rfl rfl rfl rfl rfl).1 (by decide),
   (C5_denylist_skip_or_unrecognized DirectoryLoader.init exUnrec []
      rfl rfl rfl rfl rfl rfl rfl).2 (by decide)⟩

/-- Claim C7: on an accessible root directory, a missing `index.html`
makes the load fail with the `FileNotFoundError` kind naming the directory,
while a present, parseable `index.html` failing the index schema makes it
fail with the `IndexError` kind carrying the not-white-bear message, and
the two kinds are distinct whatever messages they carry. -/
theorem C7_missing_vs_invalid_index (l : DirectoryLoader) (d1 d2 : Directory)
    (h1r : d1.readable = true) (h1w : d1.writable = true)
    (h1m : d1.index_present = false)
    (h2r : d2.readable = true) (h2w : d2.writable = true)
    (h2p : d2.index_present = true) (h2s : d2.index_parses = true)
    (h2v : d2.index_valid = false) :
    (l.load_directory d1).2 = some (LoadError.fileNotFoundError
      (Strings.exception_index ++ " " ++ d1.path))
    ∧ (l.load_directory d2).2 = some (LoadError.indexError
      (Strings.exception_not_white_bear ++ "\n" ++ d2.index_error_log))
    ∧ ∀ m1 m2 : String, LoadError.fileNotFoundError m1 ≠ LoadError.indexError m2 := by
  have hg1 : DirectoryLoader.is_white_bear_directory d1 = .error
      (LoadError.fileNotFoundError (Strings.exception_index ++ " " ++ d1.path)) := by
    unfold DirectoryLoader.is_white_bear_directory
    simp [h1r, h1w, h1m]
  have hg2 : DirectoryLoader.is_white_bear_directory d2 = .error
      (LoadError.indexError (Strings.exception_not_white_bear ++ "\n" ++ d2.index_error_log)) := by
    unfold DirectoryLoader.is_white_bear_directory
    simp [h2r, h2w, h2p, h2s, h2v]
  refine ⟨?_, ?_, ?_⟩
  · rw [load_directory_gate_error hg1]
  · rw [load_directory_gate_error hg2]
  · intro m1 m2 hcontra
    cases hcontra

/-- Witness for C7 at two concrete directories: one accessible directory
without `index.html` and one whose `index.html` parses but fails the index
schema. -/
theorem C7_missing_vs_invalid_index_witness :
    (DirectoryLoader.init.load_directory
      { path := "/w6", readable := true, writable := true, index_present := false
        index_parses := true, index_parse_diag := "", index_valid := true
        index_error_log := "", files := [] }).2
      = some (LoadError.fileNotFoundError (Strings.exception_index ++ " " ++ "/w6"))
    ∧ (DirectoryLoader.init.load_directory
      { path := "/w7", readable := true, writable := true, index_present := true
        index_parses := true, index_parse_diag := "", index_valid := false
        index_error_log := "schema says no", files := [] }).2
      = some (LoadError.indexError (Strings.exception_not_white_bear ++ "\n" ++ "schema says no")) := by
  have h := C7_missing_vs_invalid_index DirectoryLoader.init
    { path := "/w6", readable := true, writable := true, index_present := false
      index_parses := true, index_parse_diag := "", index_valid := true
      index_error_log := "", files := [] }
    { path := "/w7", readable := true, writable := true, index_present := true
      index_parses := true, index_parse_diag := "", index_valid := false
      index_error_log := "schema says no", files := [] }
    rfl rfl rfl rfl rfl rfl rfl rfl
  exact ⟨h.1, h.2.1⟩

/-- Claim C10: `load_directory` stores the supplied path into the loader
before the directory gate and the per-file pass run, and no later step
changes it, so `get_directory` returns the newly supplied path afterwards
whether the load failed or succeeded. -/
theorem C10_path_stored_before_checks (l : DirectoryLoader) (d : Directory) :
    ((l.load_directory d).1).get_directory = d.path := by
  unfold DirectoryLoader.load_directory DirectoryLoader.get_directory
  cases h : DirectoryLoader.is_white_bear_directory d with
  | error e => rfl
  | ok b => exact prepare_documents_path d.files { l with directory_path := d.path }

/-- Counterexample to claim C2: in `/w3` everything is valid except that
the second enumerated file `b.html` lacks read permission; the load fails
with the access error naming `/w3/b.html`, yet the menu mapping afterwards
holds the document built from the first file — the partial results of the
pass are not discarded. -/
theorem C2_counterexample_partial_state_kept :
    (DirectoryLoader.init.load_directory exDir3).2
      = some (LoadError.accessException (Strings.exception_access_html ++ " " ++ "/w3/b.html"))
    ∧ ((DirectoryLoader.init.load_directory exDir3).1).get_menus
      = [("m3.html", ⟨"m3.html", "/w3/m3.html", DocType.menu, false⟩)] := by
  constructor
  · decide
  · decide

/-- Claim C2 as amended: when every gate check passes, the files enumerated
before some file process without error, and that file is a real file
lacking read or write permission, the load fails with `AccessException`
naming that file — but the loader keeps the state built up to that moment
(the documents of the earlier files, on top of whatever the loader already
held); the failed pass is not all-or-nothing. -/
theorem C2_amended_access_error_keeps_partial (l lp : DirectoryLoader)
    (d : Directory) (pre rest : List HtmlFile) (bad : HtmlFile)
    (hr : d.readable = true) (hw : d.writable = true)
    (hip : d.index_present = true) (hps : d.index_parses = true)
    (hv : d.index_valid = true)
    (hfiles : d.files = pre ++ bad :: rest)
    (hpre : ({ l with directory_path := d.path }).prepare_documents pre = (lp, none))
    (hbf : bad.is_file = true)
    (hbacc : bad.readable = false ∨ bad.writable = false) :
    l.load_directory d = (lp, some (LoadError.accessException
      (Strings.exception_access_html ++ " " ++ bad.fullpath))) := by
  have hb : lp.process_file bad = Except.error (LoadError.accessException
      (Strings.exception_access_html ++ " " ++ bad.fullpath)) := by
    unfold DirectoryLoader.process_file
    rcases hbacc with hbr | hbw
    · simp [hbf, hbr]
    · simp [hbf, hbw]
  rw [load_directory_gate_ok (is_white_bear_directory_ok hr hw hip hps hv), hfiles,
    prepare_documents_append pre _ lp hpre, prepare_documents_cons_error hb]

/-- Witness for the amended C2 on the concrete directory `/w3`. -/
theorem C2_amended_access_error_keeps_partial_witness :
    DirectoryLoader.init.load_directory exDir3 =
      ({ directory_path := "/w3", article_documents := []
         menu_documents := [("m3.html", ⟨"m3.html", "/w3/m3.html", DocType.menu, false⟩)]
         index_document := none },
       some (LoadError.accessException (Strings.exception_access_html ++ " " ++ exBad.fullpath))) :=
  C2_amended_access_error_keeps_partial DirectoryLoader.init
    { directory_path := "/w3", article_documents := []
      menu_documents := [("m3.html", ⟨"m3.html", "/w3/m3.html", DocType.menu, false⟩)]
      index_document := none }
    exDir3 [exM3] [] exBad rfl rfl rfl rfl rfl rfl (by decide) rfl (Or.inl rfl)

/-- Counterexample to claim C4: after a successful load of `/w1` (one menu)
followed by a successful load of `/w2` (one article), the menu mapping
still contains the menu document produced by the first pass, although the
second pass produced no menu — the second load did not discard the first
session. -/
theorem C4_counterexample_previous_session_kept :
    (DirectoryLoader.init.load_directory exDir1).2 = none
    ∧ ((DirectoryLoader.init.load_directory exDir1).1.load_directory exDir2).2 = none
    ∧ (((DirectoryLoader.init.load_directory exDir1).1.load_directory exDir2).1).get_menus
      = [("m1.html", ⟨"m1.html", "/w1/m1.html", DocType.menu, false⟩)]
    ∧ (((DirectoryLoader.init.load_directory exDir1).1.load_directory exDir2).1).get_articles
      = [("a2.html", ⟨"a2.html", "/w2/a2.html", DocType.article, true⟩)] := by
  refine ⟨by decide, by decide, by decide, by decide⟩

/-- Claim C4 as amended: a repeated `load_directory` merges instead of
discarding — the mappings are never cleared, so every article filename and
every menu filename present before the call is still present afterwards
(its value can only be overwritten by a same-named file of the new pass),
and an already-set index document stays set. -/
theorem C4_amended_reload_merges (l : DirectoryLoader) (d : Directory) (k : String) :
    (k ∈ l.get_articles.map Prod.fst →
      k ∈ ((l.load_directory d).1).get_articles.map Prod.fst)
    ∧ (k ∈ l.get_menus.map Prod.fst →
      k ∈ ((l.load_directory d).1).get_menus.map Prod.fst)
    ∧ (l.get_index_page.isSome = true →
      ((l.load_directory d).1).get_index_page.isSome = true) := by
  unfold DirectoryLoader.load_directory DirectoryLoader.get_articles
    DirectoryLoader.get_menus DirectoryLoader.get_index_page
  cases h : DirectoryLoader.is_white_bear_directory d with
  | error e =>
    exact ⟨fun hk => hk, fun hk => hk, fun hi => hi⟩
  | ok b =>
    refine ⟨?_, ?_, ?_⟩
    · intro hk
      exact prepare_documents_article_keys d.files { l with directory_path := d.path } k hk
    · intro hk
      exact prepare_documents_menu_keys d.files { l with directory_path := d.path } k hk
    · intro hi
      exact prepare_documents_index_some d.files { l with directory_path := d.path } hi

/-- Witness for the amended C4: the menu filename loaded from `/w1` is
still a key of the menu mapping after the subsequent load of `/w2`. -/
theorem C4_amended_reload_merges_witness :
    "m1.html" ∈ ((DirectoryLoader.init.load_directory exDir1).1).get_menus.map Prod.fst
    ∧ "m1.html" ∈ (((DirectoryLoader.init.load_directory exDir1).1.load_directory exDir2).1).get_menus.map Prod.fst :=
  ⟨by decide,
    (C4_amended_reload_merges (DirectoryLoader.init.load_directory exDir1).1
      exDir2 "m1.html").2.1 (by decide)⟩

/-- Counterexample to claim C3: load `/w1` (producing the menu `m1.html`),
then load the different directory `/w2` (producing the article `a2.html`).
The second load succeeds, and the article's menu reference collection —
the loader's live menu mapping — contains `m1.html`, a menu left over from
the previous load of a different directory. -/
theorem C3_counterexample_stale_menus_visible :
    ((DirectoryLoader.init.load_directory exDir1).1.load_directory exDir2).2 = none
    ∧ (((DirectoryLoader.init.load_directory exDir1).1.load_directory exDir2).1).get_articles
      = [("a2.html", ⟨"a2.html", "/w2/a2.html", DocType.article, true⟩)]
    ∧ (((DirectoryLoader.init.load_directory exDir1).1.load_directory exDir2).1).menu_view
        ⟨"a2.html", "/w2/a2.html", DocType.article, true⟩
      = some [("m1.html", ⟨"m1.html", "/w1/m1.html", DocType.menu, false⟩)]
    ∧ exDir1.path ≠ exDir2.path := by
  refine ⟨by decide, by decide, by decide, by decide⟩

/-- Claim C3 as amended: every article document in the loader after a load
aliases the loader's one live menu dict, so its menu reference collection
has exactly the membership of the loader's menu mapping at the end of that
load (never a proper subset of it); but because the mapping is never
cleared, that shared collection may also hold menus from previous loads of
other directories. -/
theorem C3_amended_articles_alias_live_menus (l : DirectoryLoader) (d : Directory)
    (hinv : ∀ p ∈ l.article_documents, p.2.menus_ref = true) :
    ∀ p ∈ ((l.load_directory d).1).get_articles,
      ((l.load_directory d).1).menu_view p.2
        = some (((l.load_directory d).1).get_menus) := by
  have hall : ∀ p ∈ ((l.load_directory d).1).article_documents, p.2.menus_ref = true := by
    unfold DirectoryLoader.load_directory
    cases h : DirectoryLoader.is_white_bear_directory d with
    | error e => exact hinv
    | ok b => exact prepare_documents_menus_ref d.files { l with directory_path := d.path } hinv
  intro p hp
  unfold DirectoryLoader.menu_view DirectoryLoader.get_menus
  rw [hall p hp]
  simp

/-- Witness for the amended C3 on the fresh loader and `/w2`: the loaded
article's menu view is exactly the loader's menu mapping. -/
theorem C3_amended_articles_alias_live_menus_witness :
    ((DirectoryLoader.init.load_directory exDir2).1).get_articles
      = [("a2.html", ⟨"a2.html", "/w2/a2.html", DocType.article, true⟩)]
    ∧ ((DirectoryLoader.init.load_directory exDir2).1).menu_view
        ⟨"a2.html", "/w2/a2.html", DocType.article, true⟩
      = some (((DirectoryLoader.init.load_directory exDir2).1).get_menus) :=
  ⟨by decide,
    C3_amended_articles_alias_live_menus DirectoryLoader.init exDir2
      (by intro p hp; cases hp)
      ("a2.html", ⟨"a2.html", "/w2/a2.html", DocType.article, true⟩) (by decide)⟩

/-- Counterexample to claim C6: the file `s.html` in `/w4` fails to parse;
the load fails, but with the `UnrecognizedFileException` kind — exactly the
kind raised for a parseable file matching no schema, as the load of `/w5`
shows — not with a kind distinct from the unrecognized-file error. -/
theorem C6_counterexample_same_kind :
    (DirectoryLoader.init.load_directory exDir4).2
      = some (LoadError.unrecognizedFileException
        (Strings.exception_html_syntax_error ++ "\n" ++ "Opening and ending tag mismatch, line 3"))
    ∧ (DirectoryLoader.init.load_directory exDir5).2
      = some (LoadError.unrecognizedFileException
        (Strings.exception_file_unrecognized ++ " " ++ "weird.html"))
    ∧ ((DirectoryLoader.init.load_directory exDir4).2.map LoadError.kind
      = (DirectoryLoader.init.load_directory exDir5).2.map LoadError.kind) := by
  refine ⟨by decide, by decide, by decide⟩

/-- Claim C6 as amended: an enumerated, accessible file that cannot be
parsed as well-formed HTML aborts the pass at once, leaving the state as it
was, with an `UnrecognizedFileException` — the same exception kind as for
files that parse but match no schema — whose message is the HTML-syntax
text together with the underlying parser diagnostic; the two situations
are told apart only by the message, not by the kind. -/
theorem C6_amended_parse_failure_unrecognized_kind (l : DirectoryLoader)
    (f : HtmlFile) (fs : List HtmlFile)
    (hfile : f.is_file = true) (hr : f.readable = true) (hw : f.writable = true)
    (hp : f.parses = false) :
    l.prepare_documents (f :: fs) = (l, some (LoadError.unrecognizedFileException
      (Strings.exception_html_syntax_error ++ "\n" ++ f.parse_diag))) := by
  have herr : l.process_file f = Except.error (LoadError.unrecognizedFileException
      (Strings.exception_html_syntax_error ++ "\n" ++ f.parse_diag)) := by
    unfold DirectoryLoader.process_file
    simp [hfile, hr, hw, hp]
  exact prepare_documents_cons_error herr fs

/-- Witness for the amended C6 at the concrete non-parsing file `s.html`. -/
theorem C6_amended_parse_failure_unrecognized_kind_witness :
    DirectoryLoader.init.prepare_documents [exSyn] =
      (DirectoryLoader.init, some (LoadError.unrecognizedFileException
        (Strings.exception_html_syntax_error ++ "\n" ++ exSyn.parse_diag))) :=
  C6_amended_parse_failure_unrecognized_kind DirectoryLoader.init exSyn []
    rfl rfl rfl rfl

/-- Claim C8: `seo_test_self` on a link title equal to the placeholder
default fails and reports the placeholder message even when that title's
length is within the inclusive bounds; a link title one character below the
minimum length and different from the placeholder fails and reports the
length message; and a link title within bounds and different from the
placeholder — with the alt field also passing its checks — passes with
result `True`, empty error messages and the neutral status color. -/
theorem C8_link_title_rules (p : SeoPolicy) (img : BaseImage) :
    (img.link_title = p.label_article_image_link_title →
     p.article_image_title_min ≤ img.link_title.length →
     img.link_title.length ≤ p.article_image_title_max →
       (BaseImage.seo_test_self p img).1.link_title_error_message
           = Strings.seo_error_default_value
       ∧ (BaseImage.seo_test_self p img).2 = false)
    ∧ (img.link_title.length + 1 = p.article_image_title_min →
       img.link_title ≠ p.label_article_image_link_title →
       (BaseImage.seo_test_self p img).1.link_title_error_message
           = Strings.seo_error_link_title_length
       ∧ (BaseImage.seo_test_self p img).2 = false)
    ∧ (p.article_image_title_min ≤ img.link_title.length →
       img.link_title.length ≤ p.article_image_title_max →
       img.link_title ≠ p.label_article_image_link_title →
       p.article_image_alt_min ≤ img.image_alt.length →
       img.image_alt.length ≤ p.article_image_alt_max →
       img.image_alt ≠ p.label_article_image_alt →
       (BaseImage.seo_test_self p img).2 = true
       ∧ (BaseImage.seo_test_self p img).1.link_title_error_message = ""
       ∧ (BaseImage.seo_test_self p img).1.image_alt_error_message = ""
       ∧ (BaseImage.seo_test_self p img).1.get_status_color = StatusColor.nullColour) := by
  unfold BaseImage.seo_test_self BaseImage.get_status_color
  refine ⟨?_, ?_, ?_⟩
  · intro h1 h2 h3
    dsimp only
    split_ifs <;> simp_all
  · intro h1 h2
    dsimp only
    split_ifs <;> simp_all <;> omega
  · intro h1 h2 h3 h4 h5 h6
    dsimp only
    split_ifs <;> simp_all <;> omega

/-- Witness for C8 at three concrete images under the concrete policy:
the placeholder-valued title (length within bounds), the one-below-minimum
title, and the valid image. -/
theorem C8_link_title_rules_witness :
    ((BaseImage.seo_test_self exPolicy exImgPlaceholder).1.link_title_error_message
        = Strings.seo_error_default_value
      ∧ (BaseImage.seo_test_self exPolicy exImgPlaceholder).2 = false)
    ∧ ((BaseImage.seo_test_self exPolicy exImgShort).1.link_title_error_message
        = Strings.seo_error_link_title_length
      ∧ (BaseImage.seo_test_self exPolicy exImgShort).2 = false)
    ∧ ((BaseImage.seo_test_self exPolicy exImgOk).2 = true
      ∧ (BaseImage.seo_test_self exPolicy exImgOk).1.link_title_error_message = ""
      ∧ (BaseImage.seo_test_self exPolicy exImgOk).1.image_alt_error_message = ""
      ∧ (BaseImage.seo_test_self exPolicy exImgOk).1.get_status_color = StatusColor.nullColour) :=
  ⟨(C8_link_title_rules exPolicy exImgPlaceholder).1 rfl (by decide) (by decide),
   (C8_link_title_rules exPolicy exImgShort).2.1 (by decide) (by decide),
   (C8_link_title_rules exPolicy exImgOk).2.2 (by decide) (by decide) (by decide)
     (by decide) (by decide) (by decide)⟩

/-- Claim C9: `seo_test_self` clears both error messages and resets the
status color before re-evaluating, so its outcome is a function of the
current field values and the policy alone — running it on a state whose
error messages and status color were left over from any earlier call gives
exactly the same result as on the pristine state; in particular a call
whose checks all pass leaves empty messages and the neutral color even if
an earlier call had flagged the field. -/
theorem C9_revalidation_resets (p : SeoPolicy) (img : BaseImage)
    (m1 m2 : String) (c : StatusColor) :
    (BaseImage.seo_test_self p { img with link_title_error_message := m1, image_alt_error_message := m2, status_color := c }
      = BaseImage.seo_test_self p img)
    ∧ (p.article_image_title_min ≤ img.link_title.length →
       img.link_title.length ≤ p.article_image_title_max →
       img.link_title ≠ p.label_article_image_link_title →
       p.article_image_alt_min ≤ img.image_alt.length →
       img.image_alt.length ≤ p.article_image_alt_max →
       img.image_alt ≠ p.label_article_image_alt →
       (BaseImage.seo_test_self p { img with link_title_error_message := m1, image_alt_error_message := m2, status_color := c }).1.link_title_error_message = ""
       ∧ (BaseImage.seo_test_self p { img with link_title_error_message := m1, image_alt_error_message := m2, status_color := c }).1.image_alt_error_message = ""
       ∧ (BaseImage.seo_test_self p { img with link_title_error_message := m1, image_alt_error_message := m2, status_color := c }).1.status_color = StatusColor.nullColour
       ∧ (BaseImage.seo_test_self p { img with link_title_error_message := m1, image_alt_error_message := m2, status_color := c }).2 = true) := by
  have hsame : BaseImage.seo_test_self p { img with link_title_error_message := m1, image_alt_error_message := m2, status_color := c }
      = BaseImage.seo_test_self p img := rfl
  refine ⟨hsame, ?_⟩
  intro h1 h2 h3 h4 h5 h6
  rw [hsame]
  unfold BaseImage.seo_test_self
  dsimp only
  split_ifs <;> simp_all <;> omega

/-- Witness for C9: on a copy of the valid image carrying stale error
messages and a stale red flag, revalidation returns the same outcome as on
the pristine image, with empty messages and the neutral color. -/
theorem C9_revalidation_resets_witness :
    (BaseImage.seo_test_self exPolicy { exImgOk with link_title_error_message := "stale", image_alt_error_message := "stale", status_color := StatusColor.red }
      = BaseImage.seo_test_self exPolicy exImgOk)
    ∧ (BaseImage.seo_test_self exPolicy { exImgOk with link_title_error_message := "stale", image_alt_error_message := "stale", status_color := StatusColor.red }).1.link_title_error_message = ""
    ∧ (BaseImage.seo_test_self exPolicy { exImgOk with link_title_error_message := "stale", image_alt_error_message := "stale", status_color := StatusColor.red }).1.status_color = StatusColor.nullColour := by
  have h := C9_revalidation_resets exPolicy exImgOk "stale" "stale" StatusColor.red
  have h2 := h.2 (by decide) (by decide) (by decide) (by decide) (by decide) (by decide)
  exact ⟨h.1, h2.1, h2.2.2.1⟩

end Whitebear
